import Mathlib

/-!
Shallow embedding of `src/api.ts` of samsung-tv-bridge: the connection
manager class `Api` (WebSocket transport, heartbeat timer, reconnect
policy, token capture, subscriber fan-out), together with the event-loop
environment it runs in (armed timers, event-loop clock, the token file).

Each definition mirrors one method of the class or one piece of the
runtime it relies on.  Ghost fields (`connectAttempts`, `tokenWrites`,
`closeRuns`, `terminateCalls`, `retryTimersSet`, `delivered`) record
observations only; no method of the model reads them.
-/

namespace SamsungTvBridge

/-- ws heartbeat timeout before considering the connection severed: 20 seconds. -/
def EVENTS_HEARTBEAT_INTERVAL_MS : Nat := 20 * 1000

/-- time to wait before attempting to reconnect to the websocket server: 5 seconds. -/
def EVENTS_RECONNECT_INTERNAL_MS : Nat := 5 * 1000

def WSS_PORT : Nat := 8002

/-- readyState values of a ws `WebSocket`. -/
inductive ReadyState where
  | CONNECTING : ReadyState
  | OPEN : ReadyState
  | CLOSING : ReadyState
  | CLOSED : ReadyState
deriving DecidableEq

/-- The transport handle (`WebSocket`).  `terminated` records that
`terminate()` was called on it (the close event will follow);
`saveTokenRegistered` records whether the one-shot `saveToken` message
handler (registered by `connect` when a token file is configured) is
still attached. -/
structure Socket where
  url : String
  readyState : ReadyState
  terminated : Bool
  saveTokenRegistered : Bool
deriving DecidableEq

/-- An armed `setTimeout` timer of the event loop: its handle id and its
deadline on the event-loop clock (ms). -/
structure Timer where
  id : Nat
  deadline : Nat
deriving DecidableEq

/-- An inbound frame, represented by the outcome of `JSON.parse` on its
bytes: either the parse throws (`notJson`), or it yields a value whose
optional top-level `event` field and optional `data.token` field are the
only parts the code inspects. -/
inductive Frame where
  | notJson : Frame
  | json (event : Option String) (dataToken : Option String) : Frame
deriving DecidableEq

/-- The fields of the `Api` class, the event-loop environment, and ghost
observation counters. -/
structure ApiState where
  -- configuration (set by the constructor, never mutated)
  host : String
  name : String
  tokenFile : Option String
  -- mutable fields of the class
  connected : Bool
  shouldReconnect : Bool
  subscribers : List Nat       -- `Set` of callback identities, insertion order
  socket : Option Socket
  pingTimeout : Option Nat     -- timer id stored in `this.pingTimeout`
  -- event-loop environment
  now : Nat                    -- event-loop clock (ms)
  armedTimers : List Timer     -- timers set and not yet cleared or fired
  nextTimerId : Nat            -- fresh timer handle supply
  fileContent : Option String  -- token file content; `none` = the read fails
  -- ghost observations
  connectAttempts : Nat        -- number of times a new WebSocket was constructed
  tokenWrites : List String    -- sequence of writeFile calls on the token file
  closeRuns : Nat              -- number of onClose executions
  terminateCalls : Nat         -- number of socket.terminate() calls
  retryTimersSet : Nat         -- times the delayed-retry branch of reconnect ran
  delivered : List Nat         -- subscriber callbacks invoked, in order
deriving DecidableEq

/-- The constructor `new Api({host, name, headers, tokenFile})`, placed in
an idle event loop at time 0 with a given token-file state. -/
def mkApi (host name : String) (tokenFile fileContent : Option String) : ApiState :=
  { host := host, name := name, tokenFile := tokenFile
    connected := false, shouldReconnect := false, subscribers := []
    socket := none, pingTimeout := none
    now := 0, armedTimers := [], nextTimerId := 0, fileContent := fileContent
    connectAttempts := 0, tokenWrites := [], closeRuns := 0
    terminateCalls := 0, retryTimersSet := 0, delivered := [] }

/-- `WebSocket#terminate()`: immediately destroys the connection; the
close event is emitted afterwards by the event loop. -/
def Socket.terminate (sock : Socket) : Socket :=
  { sock with readyState := ReadyState.CLOSED, terminated := true }

/-- `this.socket?.terminate()`. -/
def terminateSocket (s : ApiState) : ApiState :=
  match s.socket with
  | none => s
  | some sock =>
      { s with socket := some sock.terminate
               terminateCalls := s.terminateCalls + 1 }

/-- `clearTimeout(id)`: disarm the timer with the given handle. -/
def clearTimeoutId (timers : List Timer) (id : Nat) : List Timer :=
  timers.filter (fun t => t.id ≠ id)

/-- The guard of `connect`:
`this.socket?.readyState === OPEN || this.socket?.readyState === CONNECTING`. -/
def connectGuard (s : ApiState) : Bool :=
  match s.socket with
  | some sock =>
      sock.readyState = ReadyState.OPEN ∨ sock.readyState = ReadyState.CONNECTING
  | none => false

/-- The value read for `token` in `connect`: `let token = ""` then, when
`this.tokenFile` is truthy, `token = await readFile(tokenFile, "utf8")`
with a read failure caught (warned and left as `""`). -/
def readTokenValue (s : ApiState) : String :=
  if s.tokenFile.getD "" ≠ "" then
    match s.fileContent with
    | some c => c
    | none => ""          -- catch: "Unable to find token", token stays ""
  else ""

/-- The connect URL.  `Buffer.from(this.name, "utf-8").toString()` is the
identity on the name, so the name and token are interpolated verbatim. -/
def webSocketUrl (host name token : String) : String :=
  "wss://" ++ host ++ ":" ++ toString WSS_PORT ++
    "/api/v2/channels/samsung.remote.control?name=" ++ name ++ "&token=" ++ token

/-- `connect()`: guard against repeated calls when already connected;
otherwise terminate any stale socket, read the token best-effort, build
the URL, construct the WebSocket (registering the handlers, including the
one-shot `saveToken` message handler when a token file is configured) and
return true. -/
def connect (s : ApiState) : Bool × ApiState :=
  if connectGuard s then
    (true, s)
  else
    let s := terminateSocket s
    let token := readTokenValue s
    let url := webSocketUrl s.host s.name token
    let sock : Socket :=
      { url := url, readyState := ReadyState.CONNECTING, terminated := false
        saveTokenRegistered := s.tokenFile.isSome }
    (true, { s with socket := some sock, connectAttempts := s.connectAttempts + 1 })

/-- `addSubscriber(eventHandler)`: `this.subscribers.add(eventHandler)`;
the JS `Set` de-duplicates by identity and keeps insertion order. -/
def addSubscriber (f : Nat) (s : ApiState) : ApiState :=
  { s with subscribers :=
      if f ∈ s.subscribers then s.subscribers else s.subscribers ++ [f] }

/-- `clearSubscribers()`: `this.subscribers.clear()`. -/
def clearSubscribers (s : ApiState) : ApiState :=
  { s with subscribers := [] }

/-- `disconnect()`: `this.shouldReconnect = false; this.socket?.terminate()`. -/
def disconnect (s : ApiState) : ApiState :=
  terminateSocket { s with shouldReconnect := false }

/-- `reconnect()`: return if connected or reconnection is off; otherwise
call `connect()`.  In the source `if (!this.connect())` tests a Promise,
which is always truthy, and `connect` resolves to true in every case, so
the `setTimeout` retry branch never runs; the ghost `retryTimersSet`
counts its executions. -/
def reconnect (s : ApiState) : ApiState :=
  if s.connected ∨ ¬s.shouldReconnect then s
  else
    let r := connect s
    if r.1 then r.2
    else { r.2 with retryTimersSet := r.2.retryTimersSet + 1 }

/-- `heartbeat()`: clear the pending timeout if any, then arm a fresh
20-second timeout whose callback is `this.socket?.terminate()`.  The
source clears via `clearTimeout` but never nulls the field, so the stale
handle stays in `this.pingTimeout` until overwritten. -/
def heartbeat (s : ApiState) : ApiState :=
  let timers :=
    match s.pingTimeout with
    | some id => clearTimeoutId s.armedTimers id
    | none => s.armedTimers
  { s with
      armedTimers := timers ++ [⟨s.nextTimerId, s.now + EVENTS_HEARTBEAT_INTERVAL_MS⟩]
      pingTimeout := some s.nextTimerId
      nextTimerId := s.nextTimerId + 1 }

/-- `onOpen()`: mark connected, enable reconnection, arm the heartbeat. -/
def onOpen (s : ApiState) : ApiState :=
  heartbeat { s with connected := true, shouldReconnect := true }

/-- `onMessage(event)`: reset the heartbeat, then fan the frame out to
every subscriber (`delivered` records the invocations). -/
def onMessage (s : ApiState) : ApiState :=
  let s := heartbeat s
  { s with delivered := s.delivered ++ s.subscribers }

/-- The `saveToken` closure registered on message events when a token
file is configured: `JSON.parse` the frame (a throw is swallowed); when
`this.tokenFile != null`, the payload's `event` is `"ms.channel.connect"`
and `data.token` is non-null, write the token to the file and deregister
this handler via `this.socket?.off("message", saveToken)`. -/
def saveToken (f : Frame) (s : ApiState) : ApiState :=
  match f, s.tokenFile with
  | Frame.json (some ev) (some tok), some _ =>
      if ev = "ms.channel.connect" then
        { s with
            fileContent := some tok
            tokenWrites := s.tokenWrites ++ [tok]
            socket := s.socket.map (fun sock => { sock with saveTokenRegistered := false }) }
      else s
  | _, _ => s

/-- Does the connection hold a registered `saveToken` handler? -/
def saveTokenReg (s : ApiState) : Bool :=
  match s.socket with
  | some sock => sock.saveTokenRegistered
  | none => false

/-- Delivery of one message event: the handlers run in registration
order, `onMessage` first, then `saveToken` while still registered. -/
def deliverMessage (f : Frame) (s : ApiState) : ApiState :=
  let s := onMessage s
  if saveTokenReg s then saveToken f s else s

/-- `onClose()`: clear the heartbeat timeout, drop the socket handle,
mark disconnected, then attempt a reconnect. -/
def onClose (s : ApiState) : ApiState :=
  let timers :=
    match s.pingTimeout with
    | some id => clearTimeoutId s.armedTimers id
    | none => s.armedTimers
  reconnect { s with
      armedTimers := timers
      socket := none
      connected := false
      closeRuns := s.closeRuns + 1 }

/-- `onError(error)`: log, then `this.socket?.terminate()` (which makes
the close event follow). -/
def onError (s : ApiState) : ApiState :=
  terminateSocket s

/-- Is the transport open (so that message and ping events can arrive)? -/
def socketOpen (s : ApiState) : Bool :=
  match s.socket with
  | some sock => sock.readyState = ReadyState.OPEN
  | none => false

/-- Events the event loop can deliver to the manager. -/
inductive Event where
  | openEv : Event                    -- the transport finished opening
  | pingEv : Event                    -- a protocol-level ping frame
  | messageEv (f : Frame) : Event     -- an inbound message frame
  | closeEv : Event                   -- the transport closed
  | errorEv : Event                   -- a transport error
  | timerEv (id : Nat) : Event        -- an armed timer reaches its deadline
  | tickEv (dt : Nat) : Event         -- the event-loop clock advances
deriving DecidableEq

/-- One event-loop step: deliver an event, running the transport-level
transition and then the handler `connect` registered for it.  Events that
do not apply to the current transport state are no-ops. -/
def step (e : Event) (s : ApiState) : ApiState :=
  match e with
  | Event.tickEv dt => { s with now := s.now + dt }
  | Event.openEv =>
      match s.socket with
      | some sock =>
          if sock.readyState = ReadyState.CONNECTING ∧ ¬sock.terminated then
            onOpen { s with socket := some { sock with readyState := ReadyState.OPEN } }
          else s
      | none => s
  | Event.pingEv => if socketOpen s then heartbeat s else s
  | Event.messageEv f => if socketOpen s then deliverMessage f s else s
  | Event.closeEv =>
      match s.socket with
      | some _ => onClose s
      | none => s
  | Event.errorEv =>
      match s.socket with
      | some _ => onError s
      | none => s
  | Event.timerEv id =>
      match s.armedTimers.find? (fun t => t.id = id) with
      | some t =>
          if t.deadline ≤ s.now then
            -- the heartbeat timeout callback: `this.socket?.terminate()`
            terminateSocket { s with armedTimers := clearTimeoutId s.armedTimers id }
          else s
      | none => s

/-- Run a sequence of event-loop steps. -/
def run (evs : List Event) (s : ApiState) : ApiState :=
  evs.foldl (fun st e => step e st) s

/-- The first pairing token carried by a frame that satisfies the
`saveToken` condition: parses as JSON, `event == "ms.channel.connect"`,
non-null `data.token`. -/
def frameToken (f : Frame) : Option String :=
  match f with
  | Frame.json (some ev) (some tok) =>
      if ev = "ms.channel.connect" then some tok else none
  | _ => none

/-- Timer sanity invariant: at most one timer armed, every armed timer is
the one `this.pingTimeout` refers to, its deadline lies no further than
one heartbeat interval ahead, and its handle is below the fresh supply. -/
def timersOk (s : ApiState) : Prop :=
  s.armedTimers.length ≤ 1 ∧
    ∀ t ∈ s.armedTimers,
      s.pingTimeout = some t.id ∧
      t.deadline ≤ s.now + EVENTS_HEARTBEAT_INTERVAL_MS ∧
      t.id < s.nextTimerId

instance (s : ApiState) : Decidable (timersOk s) := by
  unfold timersOk; infer_instance

/-- An uppercase hexadecimal digit, for percent-encoding. -/
def hexDigit (n : Nat) : Char :=
  if n < 10 then Char.ofNat (48 + n) else Char.ofNat (55 + n)

/-- Following the specification's words, not the source: standard
percent-encoding of a (ASCII) client name — unreserved characters kept,
every other character replaced by `%` and two hex digits.  The source
applies no such encoding; this definition exists to compare the two. -/
def specUrlEncode (str : String) : String :=
  String.join (str.data.map (fun c =>
    if c.isAlphanum ∨ c = '-' ∨ c = '_' ∨ c = '.' ∨ c = '~' then
      String.singleton c
    else
      "%" ++ String.singleton (hexDigit (c.toNat / 16)) ++
        String.singleton (hexDigit (c.toNat % 16))))

/-- Following the specification's words: the connect URL with the client
name URL-encoded. -/
def specConnectUrl (host name token : String) : String :=
  "wss://" ++ host ++ ":" ++ toString WSS_PORT ++
    "/api/v2/channels/samsung.remote.control?name=" ++ specUrlEncode name ++
    "&token=" ++ token

/-- A manager configured with a token file that reads as "abc123". -/
def demoApi : ApiState :=
  mkApi "tv" "SamsungTvRemote" (some "/config/token") (some "abc123")

/-- `demoApi` after `connect()` and the transport open event. -/
def demoOpened : ApiState := step Event.openEv (connect demoApi).2

/-- The transport handle held by `demoOpened`. -/
def demoSock : Socket :=
  { url := webSocketUrl "tv" "SamsungTvRemote" "abc123"
    readyState := ReadyState.OPEN, terminated := false, saveTokenRegistered := true }

/-- A manager whose configured token file cannot be read. -/
def demoNoFile : ApiState := mkApi "tv" "SamsungTvRemote" (some "/config/token") none

/-- A manager whose client name contains a character that percent-encoding
would rewrite. -/
def demoSpaceName : ApiState := mkApi "h" "My TV" (some "/config/token") (some "abc")

/-- `demoOpened` after the event-loop clock reaches the heartbeat
deadline with no frame in between. -/
def demoExpired : ApiState :=
  step (Event.tickEv EVENTS_HEARTBEAT_INTERVAL_MS) demoOpened

/-- The heartbeat timer armed in `demoOpened` (and still armed, expired,
in `demoExpired`). -/
def demoTimer : Timer := { id := 0, deadline := EVENTS_HEARTBEAT_INTERVAL_MS }

/-! ### Projection lemmas: which fields each operation leaves unchanged -/

@[simp] theorem terminateSocket_shouldReconnect (s : ApiState) :
    (terminateSocket s).shouldReconnect = s.shouldReconnect := by
  cases hs : s.socket <;> simp [terminateSocket, hs]

@[simp] theorem terminateSocket_connected (s : ApiState) :
    (terminateSocket s).connected = s.connected := by
  cases hs : s.socket <;> simp [terminateSocket, hs]

@[simp] theorem terminateSocket_connectAttempts (s : ApiState) :
    (terminateSocket s).connectAttempts = s.connectAttempts := by
  cases hs : s.socket <;> simp [terminateSocket, hs]

@[simp] theorem terminateSocket_host (s : ApiState) :
    (terminateSocket s).host = s.host := by
  cases hs : s.socket <;> simp [terminateSocket, hs]

@[simp] theorem terminateSocket_name (s : ApiState) :
    (terminateSocket s).name = s.name := by
  cases hs : s.socket <;> simp [terminateSocket, hs]

@[simp] theorem terminateSocket_tokenFile (s : ApiState) :
    (terminateSocket s).tokenFile = s.tokenFile := by
  cases hs : s.socket <;> simp [terminateSocket, hs]

@[simp] theorem terminateSocket_fileContent (s : ApiState) :
    (terminateSocket s).fileContent = s.fileContent := by
  cases hs : s.socket <;> simp [terminateSocket, hs]

@[simp] theorem terminateSocket_armedTimers (s : ApiState) :
    (terminateSocket s).armedTimers = s.armedTimers := by
  cases hs : s.socket <;> simp [terminateSocket, hs]

@[simp] theorem terminateSocket_pingTimeout (s : ApiState) :
    (terminateSocket s).pingTimeout = s.pingTimeout := by
  cases hs : s.socket <;> simp [terminateSocket, hs]

@[simp] theorem terminateSocket_now (s : ApiState) :
    (terminateSocket s).now = s.now := by
  cases hs : s.socket <;> simp [terminateSocket, hs]

@[simp] theorem terminateSocket_nextTimerId (s : ApiState) :
    (terminateSocket s).nextTimerId = s.nextTimerId := by
  cases hs : s.socket <;> simp [terminateSocket, hs]

@[simp] theorem terminateSocket_subscribers (s : ApiState) :
    (terminateSocket s).subscribers = s.subscribers := by
  cases hs : s.socket <;> simp [terminateSocket, hs]

@[simp] theorem terminateSocket_delivered (s : ApiState) :
    (terminateSocket s).delivered = s.delivered := by
  cases hs : s.socket <;> simp [terminateSocket, hs]

@[simp] theorem terminateSocket_tokenWrites (s : ApiState) :
    (terminateSocket s).tokenWrites = s.tokenWrites := by
  cases hs : s.socket <;> simp [terminateSocket, hs]

@[simp] theorem terminateSocket_closeRuns (s : ApiState) :
    (terminateSocket s).closeRuns = s.closeRuns := by
  cases hs : s.socket <;> simp [terminateSocket, hs]

@[simp] theorem terminateSocket_retryTimersSet (s : ApiState) :
    (terminateSocket s).retryTimersSet = s.retryTimersSet := by
  cases hs : s.socket <;> simp [terminateSocket, hs]

@[simp] theorem heartbeat_shouldReconnect (s : ApiState) :
    (heartbeat s).shouldReconnect = s.shouldReconnect := by
  cases hp : s.pingTimeout <;> simp [heartbeat, hp]

@[simp] theorem heartbeat_connected (s : ApiState) :
    (heartbeat s).connected = s.connected := by
  cases hp : s.pingTimeout <;> simp [heartbeat, hp]

@[simp] theorem heartbeat_connectAttempts (s : ApiState) :
    (heartbeat s).connectAttempts = s.connectAttempts := by
  cases hp : s.pingTimeout <;> simp [heartbeat, hp]

@[simp] theorem heartbeat_socket (s : ApiState) :
    (heartbeat s).socket = s.socket := by
  cases hp : s.pingTimeout <;> simp [heartbeat, hp]

@[simp] theorem heartbeat_tokenFile (s : ApiState) :
    (heartbeat s).tokenFile = s.tokenFile := by
  cases hp : s.pingTimeout <;> simp [heartbeat, hp]

@[simp] theorem heartbeat_fileContent (s : ApiState) :
    (heartbeat s).fileContent = s.fileContent := by
  cases hp : s.pingTimeout <;> simp [heartbeat, hp]

@[simp] theorem heartbeat_now (s : ApiState) :
    (heartbeat s).now = s.now := by
  cases hp : s.pingTimeout <;> simp [heartbeat, hp]

@[simp] theorem heartbeat_subscribers (s : ApiState) :
    (heartbeat s).subscribers = s.subscribers := by
  cases hp : s.pingTimeout <;> simp [heartbeat, hp]

@[simp] theorem heartbeat_delivered (s : ApiState) :
    (heartbeat s).delivered = s.delivered := by
  cases hp : s.pingTimeout <;> simp [heartbeat, hp]

@[simp] theorem heartbeat_tokenWrites (s : ApiState) :
    (heartbeat s).tokenWrites = s.tokenWrites := by
  cases hp : s.pingTimeout <;> simp [heartbeat, hp]

@[simp] theorem heartbeat_closeRuns (s : ApiState) :
    (heartbeat s).closeRuns = s.closeRuns := by
  cases hp : s.pingTimeout <;> simp [heartbeat, hp]

@[simp] theorem heartbeat_terminateCalls (s : ApiState) :
    (heartbeat s).terminateCalls = s.terminateCalls := by
  cases hp : s.pingTimeout <;> simp [heartbeat, hp]

@[simp] theorem heartbeat_retryTimersSet (s : ApiState) :
    (heartbeat s).retryTimersSet = s.retryTimersSet := by
  cases hp : s.pingTimeout <;> simp [heartbeat, hp]

@[simp] theorem heartbeat_pingTimeout (s : ApiState) :
    (heartbeat s).pingTimeout = some s.nextTimerId := by
  cases hp : s.pingTimeout <;> simp [heartbeat, hp]

@[simp] theorem heartbeat_nextTimerId (s : ApiState) :
    (heartbeat s).nextTimerId = s.nextTimerId + 1 := by
  cases hp : s.pingTimeout <;> simp [heartbeat, hp]

@[simp] theorem saveToken_shouldReconnect (f : Frame) (s : ApiState) :
    (saveToken f s).shouldReconnect = s.shouldReconnect := by
  unfold saveToken; split <;> (try split) <;> simp

@[simp] theorem saveToken_connected (f : Frame) (s : ApiState) :
    (saveToken f s).connected = s.connected := by
  unfold saveToken; split <;> (try split) <;> simp

@[simp] theorem saveToken_connectAttempts (f : Frame) (s : ApiState) :
    (saveToken f s).connectAttempts = s.connectAttempts := by
  unfold saveToken; split <;> (try split) <;> simp

@[simp] theorem saveToken_armedTimers (f : Frame) (s : ApiState) :
    (saveToken f s).armedTimers = s.armedTimers := by
  unfold saveToken; split <;> (try split) <;> simp

@[simp] theorem saveToken_pingTimeout (f : Frame) (s : ApiState) :
    (saveToken f s).pingTimeout = s.pingTimeout := by
  unfold saveToken; split <;> (try split) <;> simp

@[simp] theorem saveToken_nextTimerId (f : Frame) (s : ApiState) :
    (saveToken f s).nextTimerId = s.nextTimerId := by
  unfold saveToken; split <;> (try split) <;> simp

@[simp] theorem saveToken_now (f : Frame) (s : ApiState) :
    (saveToken f s).now = s.now := by
  unfold saveToken; split <;> (try split) <;> simp

@[simp] theorem saveToken_subscribers (f : Frame) (s : ApiState) :
    (saveToken f s).subscribers = s.subscribers := by
  unfold saveToken; split <;> (try split) <;> simp

@[simp] theorem saveToken_delivered (f : Frame) (s : ApiState) :
    (saveToken f s).delivered = s.delivered := by
  unfold saveToken; split <;> (try split) <;> simp

@[simp] theorem saveToken_retryTimersSet (f : Frame) (s : ApiState) :
    (saveToken f s).retryTimersSet = s.retryTimersSet := by
  unfold saveToken; split <;> (try split) <;> simp

@[simp] theorem saveToken_terminateCalls (f : Frame) (s : ApiState) :
    (saveToken f s).terminateCalls = s.terminateCalls := by
  unfold saveToken; split <;> (try split) <;> simp

@[simp] theorem saveToken_closeRuns (f : Frame) (s : ApiState) :
    (saveToken f s).closeRuns = s.closeRuns := by
  unfold saveToken; split <;> (try split) <;> simp

@[simp] theorem saveToken_tokenFile (f : Frame) (s : ApiState) :
    (saveToken f s).tokenFile = s.tokenFile := by
  unfold saveToken; split <;> (try split) <;> simp

@[simp] theorem saveToken_host (f : Frame) (s : ApiState) :
    (saveToken f s).host = s.host := by
  unfold saveToken; split <;> (try split) <;> simp

@[simp] theorem saveToken_name (f : Frame) (s : ApiState) :
    (saveToken f s).name = s.name := by
  unfold saveToken; split <;> (try split) <;> simp

@[simp] theorem onMessage_shouldReconnect (s : ApiState) :
    (onMessage s).shouldReconnect = s.shouldReconnect := by
  simp [onMessage]

@[simp] theorem onMessage_connected (s : ApiState) :
    (onMessage s).connected = s.connected := by
  simp [onMessage]

@[simp] theorem onMessage_connectAttempts (s : ApiState) :
    (onMessage s).connectAttempts = s.connectAttempts := by
  simp [onMessage]

@[simp] theorem onMessage_socket (s : ApiState) :
    (onMessage s).socket = s.socket := by
  simp [onMessage]

@[simp] theorem onMessage_tokenFile (s : ApiState) :
    (onMessage s).tokenFile = s.tokenFile := by
  simp [onMessage]

@[simp] theorem onMessage_fileContent (s : ApiState) :
    (onMessage s).fileContent = s.fileContent := by
  simp [onMessage]

@[simp] theorem onMessage_now (s : ApiState) :
    (onMessage s).now = s.now := by
  simp [onMessage]

@[simp] theorem onMessage_subscribers (s : ApiState) :
    (onMessage s).subscribers = s.subscribers := by
  simp [onMessage]

@[simp] theorem onMessage_delivered (s : ApiState) :
    (onMessage s).delivered = s.delivered ++ s.subscribers := by
  simp [onMessage]

@[simp] theorem onMessage_tokenWrites (s : ApiState) :
    (onMessage s).tokenWrites = s.tokenWrites := by
  simp [onMessage]

@[simp] theorem onMessage_closeRuns (s : ApiState) :
    (onMessage s).closeRuns = s.closeRuns := by
  simp [onMessage]

@[simp] theorem onMessage_terminateCalls (s : ApiState) :
    (onMessage s).terminateCalls = s.terminateCalls := by
  simp [onMessage]

@[simp] theorem onMessage_retryTimersSet (s : ApiState) :
    (onMessage s).retryTimersSet = s.retryTimersSet := by
  simp [onMessage]

@[simp] theorem onMessage_pingTimeout (s : ApiState) :
    (onMessage s).pingTimeout = some s.nextTimerId := by
  simp [onMessage]

@[simp] theorem onMessage_nextTimerId (s : ApiState) :
    (onMessage s).nextTimerId = s.nextTimerId + 1 := by
  simp [onMessage]

@[simp] theorem onMessage_armedTimers (s : ApiState) :
    (onMessage s).armedTimers = (heartbeat s).armedTimers := by
  simp [onMessage]

@[simp] theorem readTokenValue_terminateSocket (s : ApiState) :
    readTokenValue (terminateSocket s) = readTokenValue s := by
  simp [readTokenValue]

@[simp] theorem connect_fst (s : ApiState) : (connect s).1 = true := by
  unfold connect; split <;> simp

@[simp] theorem connect_shouldReconnect (s : ApiState) :
    (connect s).2.shouldReconnect = s.shouldReconnect := by
  unfold connect; split <;> simp

@[simp] theorem connect_connected (s : ApiState) :
    (connect s).2.connected = s.connected := by
  unfold connect; split <;> simp

@[simp] theorem connect_subscribers (s : ApiState) :
    (connect s).2.subscribers = s.subscribers := by
  unfold connect; split <;> simp

@[simp] theorem connect_tokenFile (s : ApiState) :
    (connect s).2.tokenFile = s.tokenFile := by
  unfold connect; split <;> simp

@[simp] theorem connect_fileContent (s : ApiState) :
    (connect s).2.fileContent = s.fileContent := by
  unfold connect; split <;> simp

@[simp] theorem connect_host (s : ApiState) :
    (connect s).2.host = s.host := by
  unfold connect; split <;> simp

@[simp] theorem connect_name (s : ApiState) :
    (connect s).2.name = s.name := by
  unfold connect; split <;> simp

@[simp] theorem connect_now (s : ApiState) :
    (connect s).2.now = s.now := by
  unfold connect; split <;> simp

@[simp] theorem connect_armedTimers (s : ApiState) :
    (connect s).2.armedTimers = s.armedTimers := by
  unfold connect; split <;> simp

@[simp] theorem connect_pingTimeout (s : ApiState) :
    (connect s).2.pingTimeout = s.pingTimeout := by
  unfold connect; split <;> simp

@[simp] theorem connect_nextTimerId (s : ApiState) :
    (connect s).2.nextTimerId = s.nextTimerId := by
  unfold connect; split <;> simp

@[simp] theorem connect_delivered (s : ApiState) :
    (connect s).2.delivered = s.delivered := by
  unfold connect; split <;> simp

@[simp] theorem connect_tokenWrites (s : ApiState) :
    (connect s).2.tokenWrites = s.tokenWrites := by
  unfold connect; split <;> simp

@[simp] theorem connect_closeRuns (s : ApiState) :
    (connect s).2.closeRuns = s.closeRuns := by
  unfold connect; split <;> simp

@[simp] theorem connect_retryTimersSet (s : ApiState) :
    (connect s).2.retryTimersSet = s.retryTimersSet := by
  unfold connect; split <;> simp

theorem connect_connectAttempts (s : ApiState) :
    (connect s).2.connectAttempts =
      if connectGuard s then s.connectAttempts else s.connectAttempts + 1 := by
  unfold connect; split <;> simp_all

theorem connect_terminateCalls_of_socket_none (s : ApiState) (h : s.socket = none) :
    (connect s).2.terminateCalls = s.terminateCalls := by
  have hg : connectGuard s = false := by simp [connectGuard, h]
  simp [connect, hg, terminateSocket, h]

theorem connect_socket_of_not_guard (s : ApiState) (h : connectGuard s = false) :
    (connect s).2.socket =
      some { url := webSocketUrl s.host s.name (readTokenValue s)
             readyState := ReadyState.CONNECTING, terminated := false
             saveTokenRegistered := s.tokenFile.isSome } := by
  simp [connect, h]

theorem reconnect_of_noReconnect (s : ApiState) (h : s.shouldReconnect = false) :
    reconnect s = s := by
  simp [reconnect, h]

theorem reconnect_eq_connect (s : ApiState) (hc : s.connected = false)
    (hr : s.shouldReconnect = true) :
    reconnect s = (connect s).2 := by
  simp [reconnect, hc, hr]

@[simp] theorem reconnect_retryTimersSet (s : ApiState) :
    (reconnect s).retryTimersSet = s.retryTimersSet := by
  unfold reconnect; split <;> simp

@[simp] theorem reconnect_shouldReconnect (s : ApiState) :
    (reconnect s).shouldReconnect = s.shouldReconnect := by
  unfold reconnect; split <;> simp

@[simp] theorem reconnect_connected (s : ApiState) :
    (reconnect s).connected = s.connected := by
  unfold reconnect; split <;> simp

@[simp] theorem reconnect_armedTimers (s : ApiState) :
    (reconnect s).armedTimers = s.armedTimers := by
  unfold reconnect; split <;> simp

@[simp] theorem reconnect_pingTimeout (s : ApiState) :
    (reconnect s).pingTimeout = s.pingTimeout := by
  unfold reconnect; split <;> simp

@[simp] theorem reconnect_nextTimerId (s : ApiState) :
    (reconnect s).nextTimerId = s.nextTimerId := by
  unfold reconnect; split <;> simp

@[simp] theorem reconnect_now (s : ApiState) :
    (reconnect s).now = s.now := by
  unfold reconnect; split <;> simp

@[simp] theorem reconnect_closeRuns (s : ApiState) :
    (reconnect s).closeRuns = s.closeRuns := by
  unfold reconnect; split <;> simp

@[simp] theorem reconnect_tokenWrites (s : ApiState) :
    (reconnect s).tokenWrites = s.tokenWrites := by
  unfold reconnect; split <;> simp

@[simp] theorem reconnect_delivered (s : ApiState) :
    (reconnect s).delivered = s.delivered := by
  unfold reconnect; split <;> simp

@[simp] theorem reconnect_subscribers (s : ApiState) :
    (reconnect s).subscribers = s.subscribers := by
  unfold reconnect; split <;> simp

@[simp] theorem reconnect_tokenFile (s : ApiState) :
    (reconnect s).tokenFile = s.tokenFile := by
  unfold reconnect; split <;> simp

@[simp] theorem reconnect_fileContent (s : ApiState) :
    (reconnect s).fileContent = s.fileContent := by
  unfold reconnect; split <;> simp

@[simp] theorem reconnect_host (s : ApiState) :
    (reconnect s).host = s.host := by
  unfold reconnect; split <;> simp

@[simp] theorem reconnect_name (s : ApiState) :
    (reconnect s).name = s.name := by
  unfold reconnect; split <;> simp

theorem reconnect_terminateCalls_of_socket_none (s : ApiState) (h : s.socket = none) :
    (reconnect s).terminateCalls = s.terminateCalls := by
  unfold reconnect; split
  case isTrue => rfl
  case isFalse => simp [connect_terminateCalls_of_socket_none s h]

@[simp] theorem onClose_closeRuns (s : ApiState) :
    (onClose s).closeRuns = s.closeRuns + 1 := by
  simp [onClose]

@[simp] theorem onClose_connected (s : ApiState) :
    (onClose s).connected = false := by
  simp [onClose]

@[simp] theorem onClose_shouldReconnect (s : ApiState) :
    (onClose s).shouldReconnect = s.shouldReconnect := by
  simp [onClose]

@[simp] theorem onClose_now (s : ApiState) :
    (onClose s).now = s.now := by
  simp [onClose]

@[simp] theorem onClose_nextTimerId (s : ApiState) :
    (onClose s).nextTimerId = s.nextTimerId := by
  simp [onClose]

@[simp] theorem onClose_pingTimeout (s : ApiState) :
    (onClose s).pingTimeout = s.pingTimeout := by
  simp [onClose]

@[simp] theorem onClose_retryTimersSet (s : ApiState) :
    (onClose s).retryTimersSet = s.retryTimersSet := by
  simp [onClose]

@[simp] theorem onClose_tokenWrites (s : ApiState) :
    (onClose s).tokenWrites = s.tokenWrites := by
  simp [onClose]

@[simp] theorem onClose_delivered (s : ApiState) :
    (onClose s).delivered = s.delivered := by
  simp [onClose]

@[simp] theorem onClose_subscribers (s : ApiState) :
    (onClose s).subscribers = s.subscribers := by
  simp [onClose]

@[simp] theorem onClose_tokenFile (s : ApiState) :
    (onClose s).tokenFile = s.tokenFile := by
  simp [onClose]

theorem onClose_terminateCalls (s : ApiState) :
    (onClose s).terminateCalls = s.terminateCalls := by
  unfold onClose
  rw [reconnect_terminateCalls_of_socket_none _ rfl]

theorem onClose_connectAttempts_of_reconnect (s : ApiState) (h : s.shouldReconnect = true) :
    (onClose s).connectAttempts = s.connectAttempts + 1 := by
  simp [onClose, reconnect, connectGuard, h, connect_connectAttempts]

theorem onClose_connectAttempts_of_noReconnect (s : ApiState) (h : s.shouldReconnect = false) :
    (onClose s).connectAttempts = s.connectAttempts := by
  simp [onClose, reconnect, h]

theorem onClose_armedTimers (s : ApiState) :
    (onClose s).armedTimers =
      match s.pingTimeout with
      | some id => clearTimeoutId s.armedTimers id
      | none => s.armedTimers := by
  cases hp : s.pingTimeout <;> simp [onClose, hp]

@[simp] theorem onOpen_connected (s : ApiState) :
    (onOpen s).connected = true := by
  simp [onOpen]

@[simp] theorem onOpen_shouldReconnect (s : ApiState) :
    (onOpen s).shouldReconnect = true := by
  simp [onOpen]

@[simp] theorem onOpen_connectAttempts (s : ApiState) :
    (onOpen s).connectAttempts = s.connectAttempts := by
  simp [onOpen]

@[simp] theorem onOpen_socket (s : ApiState) :
    (onOpen s).socket = s.socket := by
  simp [onOpen]

@[simp] theorem onOpen_now (s : ApiState) :
    (onOpen s).now = s.now := by
  simp [onOpen]

@[simp] theorem onOpen_nextTimerId (s : ApiState) :
    (onOpen s).nextTimerId = s.nextTimerId + 1 := by
  simp [onOpen]

@[simp] theorem onOpen_pingTimeout (s : ApiState) :
    (onOpen s).pingTimeout = some s.nextTimerId := by
  simp [onOpen]

@[simp] theorem onOpen_retryTimersSet (s : ApiState) :
    (onOpen s).retryTimersSet = s.retryTimersSet := by
  simp [onOpen]

@[simp] theorem onOpen_terminateCalls (s : ApiState) :
    (onOpen s).terminateCalls = s.terminateCalls := by
  simp [onOpen]

@[simp] theorem onOpen_closeRuns (s : ApiState) :
    (onOpen s).closeRuns = s.closeRuns := by
  simp [onOpen]

@[simp] theorem onOpen_tokenWrites (s : ApiState) :
    (onOpen s).tokenWrites = s.tokenWrites := by
  simp [onOpen]

@[simp] theorem onOpen_delivered (s : ApiState) :
    (onOpen s).delivered = s.delivered := by
  simp [onOpen]

@[simp] theorem onOpen_subscribers (s : ApiState) :
    (onOpen s).subscribers = s.subscribers := by
  simp [onOpen]

@[simp] theorem onOpen_tokenFile (s : ApiState) :
    (onOpen s).tokenFile = s.tokenFile := by
  simp [onOpen]

theorem onOpen_armedTimers (s : ApiState) :
    (onOpen s).armedTimers = (heartbeat s).armedTimers := by
  cases hp : s.pingTimeout <;> simp [onOpen, heartbeat, hp]

theorem deliverMessage_delivered (f : Frame) (s : ApiState) :
    (deliverMessage f s).delivered = s.delivered ++ s.subscribers := by
  unfold deliverMessage
  by_cases h : saveTokenReg (onMessage s) = true <;> simp [h]

theorem deliverMessage_shouldReconnect (f : Frame) (s : ApiState) :
    (deliverMessage f s).shouldReconnect = s.shouldReconnect := by
  unfold deliverMessage
  by_cases h : saveTokenReg (onMessage s) = true <;> simp [h]

theorem deliverMessage_connected (f : Frame) (s : ApiState) :
    (deliverMessage f s).connected = s.connected := by
  unfold deliverMessage
  by_cases h : saveTokenReg (onMessage s) = true <;> simp [h]

theorem deliverMessage_connectAttempts (f : Frame) (s : ApiState) :
    (deliverMessage f s).connectAttempts = s.connectAttempts := by
  unfold deliverMessage
  by_cases h : saveTokenReg (onMessage s) = true <;> simp [h]

theorem deliverMessage_now (f : Frame) (s : ApiState) :
    (deliverMessage f s).now = s.now := by
  unfold deliverMessage
  by_cases h : saveTokenReg (onMessage s) = true <;> simp [h]

theorem deliverMessage_subscribers (f : Frame) (s : ApiState) :
    (deliverMessage f s).subscribers = s.subscribers := by
  unfold deliverMessage
  by_cases h : saveTokenReg (onMessage s) = true <;> simp [h]

theorem deliverMessage_retryTimersSet (f : Frame) (s : ApiState) :
    (deliverMessage f s).retryTimersSet = s.retryTimersSet := by
  unfold deliverMessage
  by_cases h : saveTokenReg (onMessage s) = true <;> simp [h]

theorem deliverMessage_terminateCalls (f : Frame) (s : ApiState) :
    (deliverMessage f s).terminateCalls = s.terminateCalls := by
  unfold deliverMessage
  by_cases h : saveTokenReg (onMessage s) = true <;> simp [h]

theorem deliverMessage_closeRuns (f : Frame) (s : ApiState) :
    (deliverMessage f s).closeRuns = s.closeRuns := by
  unfold deliverMessage
  by_cases h : saveTokenReg (onMessage s) = true <;> simp [h]

theorem deliverMessage_tokenFile (f : Frame) (s : ApiState) :
    (deliverMessage f s).tokenFile = s.tokenFile := by
  unfold deliverMessage
  by_cases h : saveTokenReg (onMessage s) = true <;> simp [h]

theorem deliverMessage_pingTimeout (f : Frame) (s : ApiState) :
    (deliverMessage f s).pingTimeout = some s.nextTimerId := by
  unfold deliverMessage
  by_cases h : saveTokenReg (onMessage s) = true <;> simp [h]

theorem deliverMessage_nextTimerId (f : Frame) (s : ApiState) :
    (deliverMessage f s).nextTimerId = s.nextTimerId + 1 := by
  unfold deliverMessage
  by_cases h : saveTokenReg (onMessage s) = true <;> simp [h]

theorem deliverMessage_armedTimers (f : Frame) (s : ApiState) :
    (deliverMessage f s).armedTimers = (heartbeat s).armedTimers := by
  unfold deliverMessage
  by_cases h : saveTokenReg (onMessage s) = true <;> simp [h]

theorem heartbeat_armedTimers (s : ApiState) :
    (heartbeat s).armedTimers =
      (match s.pingTimeout with
       | some id => clearTimeoutId s.armedTimers id
       | none => s.armedTimers) ++
        [⟨s.nextTimerId, s.now + EVENTS_HEARTBEAT_INTERVAL_MS⟩] := by
  cases hp : s.pingTimeout <;> simp [heartbeat, hp]

/-! ### Step-level preservation lemmas -/

theorem step_shouldReconnect_of_ne_open (e : Event) (s : ApiState)
    (he : e ≠ Event.openEv) :
    (step e s).shouldReconnect = s.shouldReconnect := by
  cases e with
  | openEv => exact absurd rfl he
  | pingEv => by_cases h : socketOpen s = true <;> simp [step, h]
  | messageEv f =>
      by_cases h : socketOpen s = true <;>
        simp [step, h, deliverMessage_shouldReconnect]
  | closeEv => cases hs : s.socket <;> simp [step, hs]
  | errorEv => cases hs : s.socket <;> simp [step, hs, onError]
  | timerEv id =>
      cases hf : s.armedTimers.find? (fun t => t.id = id) with
      | none => simp [step, hf]
      | some t => by_cases h : t.deadline ≤ s.now <;> simp [step, hf, h]
  | tickEv dt => simp [step]

theorem step_connectAttempts_of_noReconnect (e : Event) (s : ApiState)
    (h : s.shouldReconnect = false) :
    (step e s).connectAttempts = s.connectAttempts := by
  cases e with
  | openEv =>
      cases hs : s.socket with
      | none => simp [step, hs]
      | some sock =>
          simp only [step, hs]
          split <;> simp
  | pingEv => by_cases ho : socketOpen s = true <;> simp [step, ho]
  | messageEv f =>
      by_cases ho : socketOpen s = true <;>
        simp [step, ho, deliverMessage_connectAttempts]
  | closeEv =>
      cases hs : s.socket with
      | none => simp [step, hs]
      | some sock => simp [step, hs, onClose_connectAttempts_of_noReconnect s h]
  | errorEv => cases hs : s.socket <;> simp [step, hs, onError]
  | timerEv id =>
      cases hf : s.armedTimers.find? (fun t => t.id = id) with
      | none => simp [step, hf]
      | some t => by_cases hd : t.deadline ≤ s.now <;> simp [step, hf, hd]
  | tickEv dt => simp [step]

theorem step_retryTimersSet (e : Event) (s : ApiState) :
    (step e s).retryTimersSet = s.retryTimersSet := by
  cases e with
  | openEv =>
      cases hs : s.socket with
      | none => simp [step, hs]
      | some sock =>
          simp only [step, hs]
          split <;> simp
  | pingEv => by_cases ho : socketOpen s = true <;> simp [step, ho]
  | messageEv f =>
      by_cases ho : socketOpen s = true <;>
        simp [step, ho, deliverMessage_retryTimersSet]
  | closeEv => cases hs : s.socket <;> simp [step, hs]
  | errorEv => cases hs : s.socket <;> simp [step, hs, onError]
  | timerEv id =>
      cases hf : s.armedTimers.find? (fun t => t.id = id) with
      | none => simp [step, hf]
      | some t => by_cases hd : t.deadline ≤ s.now <;> simp [step, hf, hd]
  | tickEv dt => simp [step]

/-! ### Behavior of the one-shot token-capture handler -/

@[simp] theorem saveTokenReg_onMessage (s : ApiState) :
    saveTokenReg (onMessage s) = saveTokenReg s := by
  unfold saveTokenReg
  rw [onMessage_socket]

theorem socketOpen_onMessage (s : ApiState) :
    socketOpen (onMessage s) = socketOpen s := by
  unfold socketOpen
  rw [onMessage_socket]

theorem saveToken_of_frameToken_none (f : Frame) (s : ApiState)
    (h : frameToken f = none) :
    saveToken f s = s := by
  cases f with
  | notJson => rfl
  | json ev tok =>
      cases ev with
      | none => cases htf : s.tokenFile <;> simp [saveToken, htf]
      | some e =>
          cases tok with
          | none => cases htf : s.tokenFile <;> simp [saveToken, htf]
          | some t =>
              have he : ¬e = "ms.channel.connect" := by
                intro hc
                simp [frameToken, hc] at h
              cases htf : s.tokenFile <;> simp [saveToken, htf, he]

theorem saveToken_of_frameToken_some (f : Frame) (s : ApiState) (tok : String)
    (h : frameToken f = some tok) (htf : s.tokenFile.isSome = true) :
    saveToken f s =
      { s with fileContent := some tok
               tokenWrites := s.tokenWrites ++ [tok]
               socket := s.socket.map
                 (fun sock => { sock with saveTokenRegistered := false }) } := by
  cases f with
  | notJson => simp [frameToken] at h
  | json ev dtok =>
      cases ev with
      | none => simp [frameToken] at h
      | some e =>
          cases dtok with
          | none => simp [frameToken] at h
          | some t =>
              by_cases he : e = "ms.channel.connect"
              · have ht : t = tok := by simpa [frameToken, he] using h
                obtain ⟨p, hp⟩ := Option.isSome_iff_exists.mp htf
                subst ht
                simp [saveToken, hp, he]
              · simp [frameToken, he] at h

theorem saveTokenReg_saveToken_write (f : Frame) (s : ApiState) (tok : String)
    (h : frameToken f = some tok) (htf : s.tokenFile.isSome = true) :
    saveTokenReg (saveToken f s) = false := by
  rw [saveToken_of_frameToken_some f s tok h htf]
  unfold saveTokenReg
  cases hs : s.socket <;> simp [hs]

theorem socketOpen_saveToken (f : Frame) (s : ApiState) :
    socketOpen (saveToken f s) = socketOpen s := by
  unfold saveToken
  split
  · split
    · cases hs : s.socket <;> simp [socketOpen, hs]
    · rfl
  · rfl

/-- One message event, delivered while the connection is open and the
capture handler is registered: the first-qualifying frame writes its
token and deregisters the handler; any other frame writes nothing and
leaves the handler registered. -/
theorem step_message_registered (f : Frame) (s : ApiState)
    (hopen : socketOpen s = true) (htf : s.tokenFile.isSome = true)
    (hreg : saveTokenReg s = true) :
    (step (Event.messageEv f) s).tokenWrites =
        s.tokenWrites ++ (frameToken f).toList ∧
      saveTokenReg (step (Event.messageEv f) s) = (frameToken f).isNone := by
  rw [show step (Event.messageEv f) s = deliverMessage f s by simp [step, hopen]]
  unfold deliverMessage
  have hregm : saveTokenReg (onMessage s) = true := by
    rw [saveTokenReg_onMessage]; exact hreg
  simp only [hregm, if_true]
  cases hft : frameToken f with
  | none =>
      rw [saveToken_of_frameToken_none f _ hft]
      simp [hregm]
  | some tok =>
      have htfm : (onMessage s).tokenFile.isSome = true := by
        rw [onMessage_tokenFile]; exact htf
      constructor
      · rw [saveToken_of_frameToken_some f _ tok hft htfm]
        simp
      · simp [saveTokenReg_saveToken_write f _ tok hft htfm]

/-- One message event while the capture handler is no longer registered:
no token write, and the handler stays deregistered. -/
theorem step_message_unregistered (f : Frame) (s : ApiState)
    (hreg : saveTokenReg s = false) :
    (step (Event.messageEv f) s).tokenWrites = s.tokenWrites ∧
      saveTokenReg (step (Event.messageEv f) s) = false := by
  by_cases hopen : socketOpen s = true
  · rw [show step (Event.messageEv f) s = deliverMessage f s by simp [step, hopen]]
    unfold deliverMessage
    have hregm : saveTokenReg (onMessage s) = false := by
      rw [saveTokenReg_onMessage]; exact hreg
    simp [hregm]
  · have : step (Event.messageEv f) s = s := by
      simp [step]
      intro hc
      exact absurd hc (by simpa using hopen)
    rw [this]
    exact ⟨rfl, hreg⟩

theorem step_message_socketOpen (f : Frame) (s : ApiState) :
    socketOpen (step (Event.messageEv f) s) = socketOpen s := by
  by_cases hopen : socketOpen s = true
  · rw [show step (Event.messageEv f) s = deliverMessage f s by simp [step, hopen]]
    unfold deliverMessage
    by_cases hreg : saveTokenReg (onMessage s) = true <;>
      simp [hreg, socketOpen_saveToken, socketOpen_onMessage]
  · have : step (Event.messageEv f) s = s := by
      simp [step]
      intro hc
      exact absurd hc (by simpa using hopen)
    rw [this]

theorem step_message_tokenFile (f : Frame) (s : ApiState) :
    (step (Event.messageEv f) s).tokenFile = s.tokenFile := by
  by_cases hopen : socketOpen s = true
  · simp [step, hopen, deliverMessage_tokenFile]
  · have : step (Event.messageEv f) s = s := by
      simp [step]
      intro hc
      exact absurd hc (by simpa using hopen)
    rw [this]

/-! ### The heartbeat-timer invariant -/

theorem heartbeat_armedTimers_of_ok (s : ApiState) (h : timersOk s) :
    (heartbeat s).armedTimers =
      [⟨s.nextTimerId, s.now + EVENTS_HEARTBEAT_INTERVAL_MS⟩] := by
  obtain ⟨hlen, hall⟩ := h
  rw [heartbeat_armedTimers]
  cases hp : s.pingTimeout with
  | none =>
      have he : s.armedTimers = [] := by
        cases ha : s.armedTimers with
        | nil => rfl
        | cons t ts =>
            have := (hall t (by simp [ha])).1
            rw [hp] at this
            exact absurd this (by simp)
      simp [he]
  | some id =>
      have he : clearTimeoutId s.armedTimers id = [] := by
        unfold clearTimeoutId
        rw [List.filter_eq_nil_iff]
        intro t ht
        have := (hall t ht).1
        rw [hp] at this
        have hid : t.id = id := by simpa using this.symm
        simp [hid]
      simp [he]

theorem timersOk_heartbeat (s : ApiState) (h : timersOk s) :
    timersOk (heartbeat s) := by
  constructor
  · rw [heartbeat_armedTimers_of_ok s h]
    simp
  · intro t ht
    rw [heartbeat_armedTimers_of_ok s h] at ht
    simp only [List.mem_singleton] at ht
    subst ht
    refine ⟨by simp, by simp, by simp⟩

theorem timersOk_onClose (s : ApiState) (h : timersOk s) :
    timersOk (onClose s) := by
  obtain ⟨hlen, hall⟩ := h
  constructor
  · rw [onClose_armedTimers]
    cases hp : s.pingTimeout with
    | none => simpa using hlen
    | some id =>
        exact le_trans (List.length_filter_le _ _) hlen
  · intro t ht
    rw [onClose_armedTimers] at ht
    have htmem : t ∈ s.armedTimers := by
      cases hp : s.pingTimeout <;> rw [hp] at ht
      · exact ht
      · exact List.mem_of_mem_filter ht
    obtain ⟨h1, h2, h3⟩ := hall t htmem
    exact ⟨by simpa using h1, by simpa using h2, by simpa using h3⟩

theorem timersOk_terminateSocket (s : ApiState) (h : timersOk s) :
    timersOk (terminateSocket s) := by
  obtain ⟨hlen, hall⟩ := h
  constructor
  · simpa using hlen
  · intro t ht
    rw [terminateSocket_armedTimers] at ht
    obtain ⟨h1, h2, h3⟩ := hall t ht
    exact ⟨by simpa using h1, by simpa using h2, by simpa using h3⟩

theorem timersOk_deliverMessage (f : Frame) (s : ApiState) (h : timersOk s) :
    timersOk (deliverMessage f s) := by
  constructor
  · rw [deliverMessage_armedTimers, heartbeat_armedTimers_of_ok s h]
    simp
  · intro t ht
    rw [deliverMessage_armedTimers, heartbeat_armedTimers_of_ok s h] at ht
    simp only [List.mem_singleton] at ht
    subst ht
    refine ⟨by rw [deliverMessage_pingTimeout], ?_, ?_⟩
    · rw [deliverMessage_now]
    · rw [deliverMessage_nextTimerId]; simp

/-- Every event-loop step preserves the heartbeat-timer invariant; in
particular at most one heartbeat timer is ever armed. -/
theorem timersOk_step (e : Event) (s : ApiState) (h : timersOk s) :
    timersOk (step e s) := by
  cases e with
  | openEv =>
      cases hs : s.socket with
      | none => simpa [step, hs] using h
      | some sock =>
          simp only [step, hs]
          split
      -- the open handler arms the heartbeat on a state with s's timer fields
          · exact timersOk_heartbeat _ h
          · exact h
  | pingEv =>
      by_cases ho : socketOpen s = true
      · simp only [step, ho, if_true]
        exact timersOk_heartbeat s h
      · simpa [step, ho] using h
  | messageEv f =>
      by_cases ho : socketOpen s = true
      · simp only [step, ho, if_true]
        exact timersOk_deliverMessage f s h
      · simpa [step, ho] using h
  | closeEv =>
      cases hs : s.socket with
      | none => simpa [step, hs] using h
      | some sock =>
          simp only [step, hs]
          exact timersOk_onClose s h
  | errorEv =>
      cases hs : s.socket with
      | none => simpa [step, hs] using h
      | some sock =>
          simp only [step, hs, onError]
          exact timersOk_terminateSocket s h
  | timerEv id =>
      obtain ⟨hlen, hall⟩ := h
      cases hf : s.armedTimers.find? (fun t => t.id = id) with
      | none => simpa [step, hf] using And.intro hlen hall
      | some t =>
          by_cases hd : t.deadline ≤ s.now
          · simp only [step, hf, hd, if_true]
            apply timersOk_terminateSocket
            constructor
            · exact le_trans (List.length_filter_le _ _) hlen
            · intro u hu
              exact hall u (List.mem_of_mem_filter hu)
          · simpa [step, hf, hd] using And.intro hlen hall
  | tickEv dt =>
      obtain ⟨hlen, hall⟩ := h
      constructor
      · simpa [step] using hlen
      · intro t ht
        simp only [step] at ht
        obtain ⟨h1, h2, h3⟩ := hall t ht
        refine ⟨by simpa [step] using h1, ?_, by simpa [step] using h3⟩
        simp only [step]
        omega

theorem terminateSocket_socket (s : ApiState) :
    (terminateSocket s).socket = s.socket.map Socket.terminate := by
  cases hs : s.socket <;> simp [terminateSocket, hs]

theorem run_noReconnect (evs : List Event) (s : ApiState)
    (hsr : s.shouldReconnect = false) (h : Event.openEv ∉ evs) :
    (run evs s).shouldReconnect = false ∧
      (run evs s).connectAttempts = s.connectAttempts := by
  induction evs generalizing s with
  | nil => exact ⟨hsr, rfl⟩
  | cons e evs ih =>
      have hne : e ≠ Event.openEv := by
        intro hc; exact h (by simp [hc])
      have hnotin : Event.openEv ∉ evs := by
        intro hc; exact h (by simp [hc])
      have hsr' : (step e s).shouldReconnect = false := by
        rw [step_shouldReconnect_of_ne_open e s hne]; exact hsr
      have hca : (step e s).connectAttempts = s.connectAttempts :=
        step_connectAttempts_of_noReconnect e s hsr
      have hrun : run (e :: evs) s = run evs (step e s) := by simp [run]
      rw [hrun]
      obtain ⟨a, b⟩ := ih (step e s) hsr' hnotin
      exact ⟨a, by rw [b, hca]⟩

/-! ### The claims -/

/-- C1: after `disconnect()` is called, every subsequent sequence of
transport events with no successful open leaves `shouldReconnect` false
and triggers no connect attempt; `reconnect()` on any such state returns
the state unchanged (it never invokes `connect()`); and no event other
than the open one can turn `shouldReconnect` back on. -/
theorem disconnect_blocks_reconnect (s : ApiState) (evs : List Event)
    (h : Event.openEv ∉ evs) :
    (run evs (disconnect s)).shouldReconnect = false ∧
      (run evs (disconnect s)).connectAttempts = (disconnect s).connectAttempts ∧
      reconnect (run evs (disconnect s)) = run evs (disconnect s) ∧
      (∀ e : Event, e ≠ Event.openEv →
        (step e (run evs (disconnect s))).shouldReconnect = false) := by
  have hd : (disconnect s).shouldReconnect = false := by simp [disconnect]
  obtain ⟨h1, h2⟩ := run_noReconnect evs (disconnect s) hd h
  refine ⟨h1, h2, reconnect_of_noReconnect _ h1, ?_⟩
  intro e he
  rw [step_shouldReconnect_of_ne_open e _ he]
  exact h1

theorem disconnect_blocks_reconnect_witness :
    Event.openEv ∉ [Event.closeEv, Event.errorEv, Event.closeEv] ∧
      (run [Event.closeEv, Event.errorEv, Event.closeEv]
          (disconnect demoOpened)).shouldReconnect = false ∧
      (run [Event.closeEv, Event.errorEv, Event.closeEv]
          (disconnect demoOpened)).connectAttempts =
        (disconnect demoOpened).connectAttempts := by
  refine ⟨by decide, ?_, ?_⟩
  · exact (disconnect_blocks_reconnect demoOpened _ (by decide)).1
  · exact (disconnect_blocks_reconnect demoOpened _ (by decide)).2.1

/-- C3: `connect()` called while the transport readyState is OPEN or
CONNECTING returns true immediately and leaves the whole state — the
transport, the subscribers, everything — unchanged. -/
theorem connect_idempotent_guard (s : ApiState) (sock : Socket)
    (hs : s.socket = some sock)
    (h : sock.readyState = ReadyState.OPEN ∨ sock.readyState = ReadyState.CONNECTING) :
    connect s = (true, s) := by
  have hg : connectGuard s = true := by
    simp [connectGuard, hs]
    exact h
  simp [connect, hg]

theorem connect_idempotent_guard_witness :
    demoOpened.socket = some demoSock ∧
      demoSock.readyState = ReadyState.OPEN ∧
      connect demoOpened = (true, demoOpened) := by
  refine ⟨by decide, by decide, ?_⟩
  exact connect_idempotent_guard demoOpened demoSock (by decide) (Or.inl (by decide))

/-- C6: a transport close event on a state that still wants to reconnect
initiates a new `connect()` attempt at once; `connect` reports success in
every state, so the fixed-delay retry branch of `reconnect` never runs:
no operation ever changes the ghost `retryTimersSet` counter. -/
theorem close_triggers_immediate_reconnect (s : ApiState)
    (hs : s.socket.isSome = true) (hr : s.shouldReconnect = true) :
    (step Event.closeEv s).connectAttempts = s.connectAttempts + 1 ∧
      (∀ s' : ApiState, (connect s').1 = true) ∧
      (∀ s' : ApiState, (reconnect s').retryTimersSet = s'.retryTimersSet) ∧
      (∀ (e : Event) (s' : ApiState),
        (step e s').retryTimersSet = s'.retryTimersSet) := by
  obtain ⟨sock, hsock⟩ := Option.isSome_iff_exists.mp hs
  refine ⟨?_, fun s' => connect_fst s', fun s' => reconnect_retryTimersSet s',
    fun e s' => step_retryTimersSet e s'⟩
  simp only [step, hsock]
  exact onClose_connectAttempts_of_reconnect s hr

theorem close_triggers_immediate_reconnect_witness :
    demoOpened.socket.isSome = true ∧ demoOpened.shouldReconnect = true ∧
      (step Event.closeEv demoOpened).connectAttempts =
        demoOpened.connectAttempts + 1 := by
  refine ⟨by decide, by decide, ?_⟩
  exact (close_triggers_immediate_reconnect demoOpened (by decide) (by decide)).1

/-- C7, counterexample: with the client name "My TV", the URL the code
builds is not the claimed form with the URL-encoded name — the code
interpolates the name verbatim, without URL encoding. -/
theorem url_encoding_counterexample :
    (connect demoSpaceName).2.socket.map Socket.url ≠
      some (specConnectUrl "h" "My TV" "abc") := by
  decide

/-- C7, amended: for every `connect()` call that proceeds past the
idempotent guard, the connection URL is exactly
`wss://<host>:8002/api/v2/channels/samsung.remote.control?name=<name>&token=<token>`
with the configured client name and the token read from the file inserted
verbatim (no URL encoding is applied to either). -/
theorem connect_url_verbatim (s : ApiState) (p tok : String)
    (hg : connectGuard s = false) (ht : s.tokenFile = some p) (hp : p ≠ "")
    (hf : s.fileContent = some tok) :
    (connect s).2.socket.map Socket.url =
      some (webSocketUrl s.host s.name tok) := by
  rw [connect_socket_of_not_guard s hg]
  simp [readTokenValue, ht, hp, hf]

theorem connect_url_verbatim_witness :
    connectGuard demoApi = false ∧
      (connect demoApi).2.socket.map Socket.url =
        some "wss://tv:8002/api/v2/channels/samsung.remote.control?name=SamsungTvRemote&token=abc123" := by
  refine ⟨by decide, ?_⟩
  have h := connect_url_verbatim demoApi "/config/token" "abc123"
    (by decide) (by decide) (by decide) (by decide)
  rw [h]
  decide

/-- C8: when the configured token file cannot be read, `connect()` still
returns true (no error is surfaced), proceeds, and builds the URL with an
empty token query parameter. -/
theorem token_read_failure_empty_token (s : ApiState) (p : String)
    (hg : connectGuard s = false) (ht : s.tokenFile = some p) (hp : p ≠ "")
    (hf : s.fileContent = none) :
    (connect s).1 = true ∧
      (connect s).2.socket.map Socket.url =
        some (webSocketUrl s.host s.name "") := by
  refine ⟨connect_fst s, ?_⟩
  rw [connect_socket_of_not_guard s hg]
  simp [readTokenValue, ht, hp, hf]

theorem token_read_failure_empty_token_witness :
    connectGuard demoNoFile = false ∧
      (connect demoNoFile).1 = true ∧
      (connect demoNoFile).2.socket.map Socket.url =
        some "wss://tv:8002/api/v2/channels/samsung.remote.control?name=SamsungTvRemote&token=" := by
  refine ⟨by decide, ?_, ?_⟩
  · exact (token_read_failure_empty_token demoNoFile "/config/token"
      (by decide) (by decide) (by decide) (by decide)).1
  · have h := (token_read_failure_empty_token demoNoFile "/config/token"
      (by decide) (by decide) (by decide) (by decide)).2
    rw [h]
    decide

theorem socketOpen_addSubscriber (f : Nat) (s : ApiState) :
    socketOpen (addSubscriber f s) = socketOpen s := rfl

theorem socketOpen_clearSubscribers (s : ApiState) :
    socketOpen (clearSubscribers s) = socketOpen s := rfl

/-- C9: the subscriber registry de-duplicates by callback identity and
clears wholesale: after adding the same callback twice it is present once
(a second add is a no-op), a message then delivers to it exactly once,
and after `clearSubscribers()` a message is delivered to no callback. -/
theorem subscriber_dedup_and_clear (s : ApiState) (f : Nat) (fr : Frame)
    (hopen : socketOpen s = true) (hf : f ∉ s.subscribers) :
    addSubscriber f (addSubscriber f s) = addSubscriber f s ∧
      (addSubscriber f s).subscribers.count f = 1 ∧
      (step (Event.messageEv fr) (addSubscriber f s)).delivered =
        (addSubscriber f s).delivered ++ (addSubscriber f s).subscribers ∧
      (step (Event.messageEv fr) (clearSubscribers s)).delivered =
        (clearSubscribers s).delivered := by
  have hcount : s.subscribers.count f = 0 := List.count_eq_zero.mpr hf
  refine ⟨?_, ?_, ?_, ?_⟩
  · simp [addSubscriber, hf]
  · simp [addSubscriber, hf, hcount]
  · have ho : socketOpen (addSubscriber f s) = true := by
      rw [socketOpen_addSubscriber]; exact hopen
    rw [show step (Event.messageEv fr) (addSubscriber f s) =
        deliverMessage fr (addSubscriber f s) by simp [step, ho]]
    exact deliverMessage_delivered fr _
  · have ho : socketOpen (clearSubscribers s) = true := by
      rw [socketOpen_clearSubscribers]; exact hopen
    rw [show step (Event.messageEv fr) (clearSubscribers s) =
        deliverMessage fr (clearSubscribers s) by simp [step, ho]]
    rw [deliverMessage_delivered fr _]
    simp [clearSubscribers]

theorem subscriber_dedup_and_clear_witness :
    socketOpen demoOpened = true ∧ (7 : Nat) ∉ demoOpened.subscribers ∧
      addSubscriber 7 (addSubscriber 7 demoOpened) = addSubscriber 7 demoOpened ∧
      (addSubscriber 7 demoOpened).subscribers.count 7 = 1 := by
  refine ⟨by decide, by decide, ?_, ?_⟩
  · exact (subscriber_dedup_and_clear demoOpened 7 Frame.notJson
      (by decide) (by decide)).1
  · exact (subscriber_dedup_and_clear demoOpened 7 Frame.notJson
      (by decide) (by decide)).2.1

/-- C10: `disconnect()` never touches the public `connected` flag — nor
any field other than `shouldReconnect` and the transport it terminates —
and `connected` becomes false only when the transport close handler
subsequently runs. -/
theorem disconnect_frame_condition (s : ApiState) :
    (s.socket.isSome = true →
        (step Event.closeEv (disconnect s)).connected = false) ∧
      (disconnect s).connected = s.connected ∧
      (disconnect s).subscribers = s.subscribers ∧
      (disconnect s).pingTimeout = s.pingTimeout ∧
      (disconnect s).armedTimers = s.armedTimers ∧
      (disconnect s).now = s.now ∧
      (disconnect s).nextTimerId = s.nextTimerId ∧
      (disconnect s).fileContent = s.fileContent ∧
      (disconnect s).tokenFile = s.tokenFile ∧
      (disconnect s).host = s.host ∧
      (disconnect s).name = s.name ∧
      (disconnect s).connectAttempts = s.connectAttempts ∧
      (disconnect s).closeRuns = s.closeRuns ∧
      (disconnect s).tokenWrites = s.tokenWrites ∧
      (disconnect s).delivered = s.delivered ∧
      (disconnect s).retryTimersSet = s.retryTimersSet ∧
      (disconnect s).shouldReconnect = false ∧
      (disconnect s).socket = s.socket.map Socket.terminate := by
  have hsockmap : (disconnect s).socket = s.socket.map Socket.terminate := by
    rw [disconnect, terminateSocket_socket]
  have himp : s.socket.isSome = true →
      (step Event.closeEv (disconnect s)).connected = false := by
    intro hsome
    obtain ⟨sock, hsock⟩ := Option.isSome_iff_exists.mp hsome
    have hds : (disconnect s).socket = some sock.terminate := by
      rw [hsockmap, hsock]
      rfl
    simp [step, hds]
  exact ⟨himp, by simp [disconnect], by simp [disconnect], by simp [disconnect],
    by simp [disconnect], by simp [disconnect], by simp [disconnect],
    by simp [disconnect], by simp [disconnect], by simp [disconnect],
    by simp [disconnect], by simp [disconnect], by simp [disconnect],
    by simp [disconnect], by simp [disconnect], by simp [disconnect],
    by simp [disconnect], hsockmap⟩

theorem disconnect_frame_condition_witness :
    demoOpened.socket.isSome = true ∧
      (step Event.closeEv (disconnect demoOpened)).connected = false ∧
      (disconnect demoOpened).connected = demoOpened.connected := by
  refine ⟨by decide, ?_, ?_⟩
  · exact (disconnect_frame_condition demoOpened).1 (by decide)
  · exact (disconnect_frame_condition demoOpened).2.1

theorem run_messages_unregistered (fs : List Frame) (s : ApiState)
    (hreg : saveTokenReg s = false) :
    (run (fs.map Event.messageEv) s).tokenWrites = s.tokenWrites ∧
      saveTokenReg (run (fs.map Event.messageEv) s) = false := by
  induction fs generalizing s with
  | nil => exact ⟨rfl, hreg⟩
  | cons f fs ih =>
      obtain ⟨hw, hr⟩ := step_message_unregistered f s hreg
      have hrun : run ((f :: fs).map Event.messageEv) s =
          run (fs.map Event.messageEv) (step (Event.messageEv f) s) := by
        simp [run]
      rw [hrun]
      obtain ⟨a, b⟩ := ih _ hr
      exact ⟨by rw [a, hw], b⟩

/-- C2: over any sequence of inbound frames on one established connection
with the token file configured and the capture handler registered, the
token-file writes are exactly the token of the first frame that parses as
JSON with event "ms.channel.connect" and a non-null data.token — so at
most one write ever occurs; that first write deregisters the handler, and
malformed or non-qualifying frames cause no write and surface no error. -/
theorem token_capture_at_most_once (s : ApiState) (frames : List Frame)
    (hopen : socketOpen s = true) (htf : s.tokenFile.isSome = true)
    (hreg : saveTokenReg s = true) :
    (run (frames.map Event.messageEv) s).tokenWrites =
        s.tokenWrites ++ (frames.findSome? frameToken).toList ∧
      saveTokenReg (run (frames.map Event.messageEv) s) =
        (frames.findSome? frameToken).isNone := by
  induction frames generalizing s with
  | nil =>
      constructor <;> simp [run, hreg]
  | cons f fs ih =>
      have hrun : run ((f :: fs).map Event.messageEv) s =
          run (fs.map Event.messageEv) (step (Event.messageEv f) s) := by
        simp [run]
      obtain ⟨hw, hr⟩ := step_message_registered f s hopen htf hreg
      have hopen' : socketOpen (step (Event.messageEv f) s) = true := by
        rw [step_message_socketOpen]; exact hopen
      have htf' : (step (Event.messageEv f) s).tokenFile.isSome = true := by
        rw [step_message_tokenFile]; exact htf
      cases hft : frameToken f with
      | some tok =>
          rw [hft] at hw hr
          rw [hrun]
          obtain ⟨a, b⟩ := run_messages_unregistered fs
            (step (Event.messageEv f) s) (by simpa using hr)
          constructor
          · rw [a, hw]
            simp [List.findSome?_cons, hft]
          · rw [b]
            simp [List.findSome?_cons, hft]
      | none =>
          rw [hft] at hw hr
          rw [hrun]
          obtain ⟨a, b⟩ := ih (step (Event.messageEv f) s) hopen' htf'
            (by simpa using hr)
          constructor
          · rw [a]
            simp at hw
            rw [hw]
            simp [List.findSome?_cons, hft]
          · rw [b]
            simp [List.findSome?_cons, hft]

theorem token_capture_at_most_once_witness :
    socketOpen demoOpened = true ∧ demoOpened.tokenFile.isSome = true ∧
      saveTokenReg demoOpened = true ∧
      (run ([Frame.json (some "ms.channel.connect") (some "NEWTOK"),
             Frame.notJson,
             Frame.json (some "ms.channel.connect") (some "T2")].map
            Event.messageEv) demoOpened).tokenWrites =
        demoOpened.tokenWrites ++ ["NEWTOK"] := by
  refine ⟨by decide, by decide, by decide, ?_⟩
  have h := (token_capture_at_most_once demoOpened
    [Frame.json (some "ms.channel.connect") (some "NEWTOK"),
     Frame.notJson,
     Frame.json (some "ms.channel.connect") (some "T2")]
    (by decide) (by decide) (by decide)).1
  rw [h]
  decide

/-- C4, counterexample: a qualifying frame does not always arm a timer
with a strictly later deadline.  At `demoOpened` (connection open, one
heartbeat timer armed with deadline now + 20s) a ping delivered at the
same event-loop instant rearms the heartbeat with a deadline equal to
the old one — `setTimeout` deadlines come from the event-loop clock,
which has not advanced — so the strict inequality fails. -/
theorem heartbeat_strict_deadline_counterexample :
    socketOpen demoOpened = true ∧
      demoOpened.armedTimers.map Timer.deadline =
        [demoOpened.now + EVENTS_HEARTBEAT_INTERVAL_MS] ∧
      (step Event.pingEv demoOpened).armedTimers.map Timer.deadline =
        demoOpened.armedTimers.map Timer.deadline ∧
      ¬ (∀ t ∈ demoOpened.armedTimers,
          ∀ u ∈ (step Event.pingEv demoOpened).armedTimers,
            t.deadline < u.deadline) := by
  decide

/-- C4, amended: every qualifying inbound frame (message or protocol-
level ping) on an open connection rearms the heartbeat: the old timeout
is cancelled and afterwards exactly one fresh timer with deadline
now + 20s is armed; every previously armed timer had a deadline no later
than now + 20s (no frame ever shortens the deadline), and the new
deadline is strictly later whenever the old one lay strictly below
now + 20s — that is, whenever the event-loop clock advanced since the
previous arming; two frames at the same instant yield an equal deadline.
Every event-loop step preserves the at-most-one-armed-timer invariant. -/
theorem heartbeat_rearm_single_timer (s : ApiState) (e : Event) (f : Frame)
    (he : e = Event.pingEv ∨ e = Event.messageEv f)
    (hopen : socketOpen s = true) (hinv : timersOk s) :
    (step e s).armedTimers =
        [⟨s.nextTimerId, s.now + EVENTS_HEARTBEAT_INTERVAL_MS⟩] ∧
      (∀ t ∈ s.armedTimers,
        t.deadline ≤ s.now + EVENTS_HEARTBEAT_INTERVAL_MS) ∧
      (∀ t ∈ s.armedTimers,
        t.deadline < s.now + EVENTS_HEARTBEAT_INTERVAL_MS →
          ∀ u ∈ (step e s).armedTimers, t.deadline < u.deadline) ∧
      (∀ (ev : Event) (s' : ApiState), timersOk s' → timersOk (step ev s')) := by
  have harm : (step e s).armedTimers =
      [⟨s.nextTimerId, s.now + EVENTS_HEARTBEAT_INTERVAL_MS⟩] := by
    rcases he with rfl | rfl
    · rw [show step Event.pingEv s = heartbeat s by simp [step, hopen]]
      exact heartbeat_armedTimers_of_ok s hinv
    · rw [show step (Event.messageEv f) s = deliverMessage f s by
        simp [step, hopen]]
      rw [deliverMessage_armedTimers, heartbeat_armedTimers_of_ok s hinv]
  refine ⟨harm, ?_, ?_, fun ev s' h => timersOk_step ev s' h⟩
  · intro t ht
    exact (hinv.2 t ht).2.1
  · intro t ht hlt u hu
    rw [harm] at hu
    simp only [List.mem_singleton] at hu
    subst hu
    exact hlt

theorem heartbeat_rearm_single_timer_witness :
    socketOpen demoOpened = true ∧ timersOk demoOpened ∧
      (step Event.pingEv demoOpened).armedTimers =
        [⟨demoOpened.nextTimerId,
          demoOpened.now + EVENTS_HEARTBEAT_INTERVAL_MS⟩] := by
  refine ⟨by decide, by decide, ?_⟩
  exact (heartbeat_rearm_single_timer demoOpened Event.pingEv Frame.notJson
    (Or.inl rfl) (by decide) (by decide)).1

theorem step_close_eq_onClose (x : ApiState) (v : Socket)
    (hx : x.socket = some v) :
    step Event.closeEv x = onClose x := by
  simp only [step, hx]

/-- C5: when the armed heartbeat timer's deadline has passed with no
qualifying frame, the timer fires: its callback force-terminates the
transport exactly once (one terminate call and no timer left armed, so it
cannot fire again), and the close event that follows runs exactly one
close-handling pass — the close counter rises by one, the heartbeat stays
disarmed, `connected` is false, and no further terminate call happens. -/
theorem heartbeat_timeout_single_close (s : ApiState) (t : Timer)
    (harm : s.armedTimers = [t]) (hdl : t.deadline ≤ s.now)
    (hsock : s.socket.isSome = true) :
    (step (Event.timerEv t.id) s).terminateCalls = s.terminateCalls + 1 ∧
      (step (Event.timerEv t.id) s).armedTimers = [] ∧
      (step (Event.timerEv t.id) s).closeRuns = s.closeRuns ∧
      (step Event.closeEv (step (Event.timerEv t.id) s)).closeRuns =
        s.closeRuns + 1 ∧
      (step Event.closeEv (step (Event.timerEv t.id) s)).connected = false ∧
      (step Event.closeEv (step (Event.timerEv t.id) s)).terminateCalls =
        s.terminateCalls + 1 ∧
      (step Event.closeEv (step (Event.timerEv t.id) s)).armedTimers = [] := by
  obtain ⟨sock, hsocks⟩ := Option.isSome_iff_exists.mp hsock
  have hfind : s.armedTimers.find? (fun u => u.id = t.id) = some t := by
    rw [harm]
    simp
  have hclear : clearTimeoutId s.armedTimers t.id = [] := by
    rw [harm]
    simp [clearTimeoutId]
  have hstep1 : step (Event.timerEv t.id) s =
      terminateSocket { s with armedTimers := clearTimeoutId s.armedTimers t.id } := by
    simp only [step, hfind]
    rw [if_pos hdl]
  have h1t : (step (Event.timerEv t.id) s).terminateCalls =
      s.terminateCalls + 1 := by
    rw [hstep1]
    unfold terminateSocket
    simp [hsocks]
  have h1a : (step (Event.timerEv t.id) s).armedTimers = [] := by
    rw [hstep1, terminateSocket_armedTimers]
    simp [hclear]
  have h1c : (step (Event.timerEv t.id) s).closeRuns = s.closeRuns := by
    rw [hstep1, terminateSocket_closeRuns]
  have h1s : (step (Event.timerEv t.id) s).socket = some sock.terminate := by
    rw [hstep1, terminateSocket_socket]
    simp [hsocks]
  have hstep2 : step Event.closeEv (step (Event.timerEv t.id) s) =
      onClose (step (Event.timerEv t.id) s) :=
    step_close_eq_onClose _ _ h1s
  refine ⟨h1t, h1a, h1c, ?_, ?_, ?_, ?_⟩
  · rw [hstep2, onClose_closeRuns, h1c]
  · rw [hstep2, onClose_connected]
  · rw [hstep2, onClose_terminateCalls, h1t]
  · rw [hstep2, onClose_armedTimers, h1a]
    cases hp : (step (Event.timerEv t.id) s).pingTimeout <;>
      simp [clearTimeoutId]

theorem heartbeat_timeout_single_close_witness :
    demoExpired.armedTimers = [demoTimer] ∧
      demoTimer.deadline ≤ demoExpired.now ∧
      demoExpired.socket.isSome = true ∧
      (step (Event.timerEv demoTimer.id) demoExpired).terminateCalls =
        demoExpired.terminateCalls + 1 ∧
      (step Event.closeEv
          (step (Event.timerEv demoTimer.id) demoExpired)).closeRuns =
        demoExpired.closeRuns + 1 := by
  refine ⟨by decide, by decide, by decide, ?_, ?_⟩
  · exact (heartbeat_timeout_single_close demoExpired demoTimer
      (by decide) (by decide) (by decide)).1
  · exact (heartbeat_timeout_single_close demoExpired demoTimer
      (by decide) (by decide) (by decide)).2.2.2.1

end SamsungTvBridge
